import Mathlib

/-!
Verification of the per-tick aerodynamic flight-force model of the
`flight-sim-bevy-rust` repository against its natural-language specification.

The embedding models the code over exact rationals (`ℚ`): `f32` arithmetic is
idealized as exact rational arithmetic, the transcendental primitives
(`acos`-based `Vec3::angle_between`, `f32::to_degrees`) are abstracted as
function parameters, and the IEEE `NaN` produced by `glam`'s
`Vec3::normalize` on the zero vector is modelled as `Option.none`
propagating through the angle computation (in `glam`, `Vec3::ZERO.normalize()`
yields a `NaN` vector and any `angle_between` with it is `NaN`).
All conclusions drawn below are robust to `f32` rounding: every refuted
equality fails by a margin far above `f32` epsilon, and every confirmed
identity is exact in IEEE arithmetic as well (products with the exact
constant `0.0`, overwrites, clamps and list lengths).
-/

namespace FlightSim

/-- A 3-vector over `ℚ`, modelling `glam::Vec3` (idealized `f32` components). -/
structure Vec3 where
  x : ℚ
  y : ℚ
  z : ℚ
deriving DecidableEq, Repr

namespace Vec3

/-- The zero vector `Vec3::ZERO`. -/
def zero : Vec3 := ⟨0, 0, 0⟩

/-- Componentwise addition. -/
def add (a b : Vec3) : Vec3 := ⟨a.x + b.x, a.y + b.y, a.z + b.z⟩

/-- Componentwise subtraction. -/
def sub (a b : Vec3) : Vec3 := ⟨a.x - b.x, a.y - b.y, a.z - b.z⟩

/-- Negation. -/
def neg (a : Vec3) : Vec3 := ⟨-a.x, -a.y, -a.z⟩

/-- Scalar multiplication `v * s` (as in `glam`, vector times `f32`). -/
def smul (a : Vec3) (s : ℚ) : Vec3 := ⟨a.x * s, a.y * s, a.z * s⟩

/-- Dot product. -/
def dot (a b : Vec3) : ℚ := a.x * b.x + a.y * b.y + a.z * b.z

/-- Cross product. -/
def cross (a b : Vec3) : Vec3 :=
  ⟨a.y * b.z - a.z * b.y, a.z * b.x - a.x * b.z, a.x * b.y - a.y * b.x⟩

theorem ext_iff {a b : Vec3} : a = b ↔ a.x = b.x ∧ a.y = b.y ∧ a.z = b.z := by
  constructor
  · intro h; subst h; exact ⟨rfl, rfl, rfl⟩
  · intro ⟨h1, h2, h3⟩; cases a; cases b; simp_all

@[simp] theorem add_x (a b : Vec3) : (a.add b).x = a.x + b.x := rfl
@[simp] theorem add_y (a b : Vec3) : (a.add b).y = a.y + b.y := rfl
@[simp] theorem add_z (a b : Vec3) : (a.add b).z = a.z + b.z := rfl
@[simp] theorem sub_x (a b : Vec3) : (a.sub b).x = a.x - b.x := rfl
@[simp] theorem sub_y (a b : Vec3) : (a.sub b).y = a.y - b.y := rfl
@[simp] theorem sub_z (a b : Vec3) : (a.sub b).z = a.z - b.z := rfl
@[simp] theorem smul_x (a : Vec3) (s : ℚ) : (a.smul s).x = a.x * s := rfl
@[simp] theorem smul_y (a : Vec3) (s : ℚ) : (a.smul s).y = a.y * s := rfl
@[simp] theorem smul_z (a : Vec3) (s : ℚ) : (a.smul s).z = a.z * s := rfl
@[simp] theorem neg_x (a : Vec3) : a.neg.x = -a.x := rfl
@[simp] theorem neg_y (a : Vec3) : a.neg.y = -a.y := rfl
@[simp] theorem neg_z (a : Vec3) : a.neg.z = -a.z := rfl
@[simp] theorem zero_x : (zero).x = 0 := rfl
@[simp] theorem zero_y : (zero).y = 0 := rfl
@[simp] theorem zero_z : (zero).z = 0 := rfl

theorem add_assoc (a b c : Vec3) : (a.add b).add c = a.add (b.add c) := by
  simp [ext_iff]; refine ⟨by ring, by ring, by ring⟩

theorem zero_add (a : Vec3) : zero.add a = a := by
  simp [ext_iff]

theorem add_zero (a : Vec3) : a.add zero = a := by
  simp [ext_iff]

theorem smul_zero (a : Vec3) : a.smul 0 = zero := by
  simp [ext_iff]

theorem cross_zero (a : Vec3) : a.cross zero = zero := by
  simp [ext_iff, cross]

end Vec3

/-- A 3x3 matrix over `ℚ` (rows), modelling the rotation part of a
`GlobalTransform`'s affine matrix. -/
structure Mat3 where
  r0 : Vec3
  r1 : Vec3
  r2 : Vec3
deriving DecidableEq, Repr

namespace Mat3

/-- Matrix-vector product. -/
def mulVec (m : Mat3) (v : Vec3) : Vec3 :=
  ⟨m.r0.dot v, m.r1.dot v, m.r2.dot v⟩

/-- The identity rotation. -/
def id3 : Mat3 := ⟨⟨1, 0, 0⟩, ⟨0, 1, 0⟩, ⟨0, 0, 1⟩⟩

/-- Rotation by 90 degrees about the world Y axis (maps `Z` to `X`, `X` to `-Z`). -/
def rotY90 : Mat3 := ⟨⟨0, 0, 1⟩, ⟨0, 1, 0⟩, ⟨-1, 0, 0⟩⟩

end Mat3

/-- `bevy`'s `GlobalTransform::forward()` for a pure rotation: the rotation
applied to the local `-Z` axis. -/
def Mat3.forward (m : Mat3) : Vec3 := m.mulVec ⟨0, 0, -1⟩

/-! ## Coefficient curve sampling

Embeds `enterpolation::linear::Linear` evaluation and the `Curve::take(180)`
sampling used both by `setup_plane` (src/plane.rs) and by
`WingSpec::build_samples` (src/plane/spec.rs). The curve is stored, as in
`WingSpec`, as a list of `(coefficient, angle_degrees)` pairs; elements and
knots are the first and second projections. `Curve::take(n)` samples the
curve at `n` equidistant points spanning its domain `[first knot, last knot]`
inclusive of both ends, i.e. at `start + i * (end - start) / (n - 1)`
(the crate's documented behavior: `take(21)` over a unit domain samples at
steps of `0.05` from `0.0` to `1.0`). -/

/-- Piecewise-linear evaluation of an `enterpolation` `Linear` curve given as
`(element, knot)` pairs with ascending knots: on segment `[k1, k2]` the value
is `e1 + (t - k1)/(k2 - k1) * (e2 - e1)`; queries beyond the last segment use
the last segment (irrelevant here, as sampling stays inside the domain). -/
def linearEval : List (ℚ × ℚ) → ℚ → ℚ
  | [], _ => 0
  | [(e, _)], _ => e
  | (e1, k1) :: (e2, k2) :: rest, t =>
    if t ≤ k2 then e1 + (t - k1) / (k2 - k1) * (e2 - e1)
    else linearEval ((e2, k2) :: rest) t

/-- First knot of a curve (start of its domain). -/
def domainStart (curve : List (ℚ × ℚ)) : ℚ := ((curve.head?).map Prod.snd).getD 0

/-- Last knot of a curve (end of its domain). -/
def domainEnd (curve : List (ℚ × ℚ)) : ℚ := ((curve.getLast?).map Prod.snd).getD 0

/-- The angle at which `Curve::take(180)` takes its `i`-th sample: the `i`-th
of 180 equidistant points across the curve's domain, both endpoints
included. -/
def sampleAngle (curve : List (ℚ × ℚ)) (i : ℕ) : ℚ :=
  domainStart curve + (domainEnd curve - domainStart curve) * (i : ℚ) / 179

/-- Embeds `WingSpec::build_samples` (src/plane/spec.rs) and the identical
`curve.take(180).collect()` in `setup_plane` (src/plane.rs): 180 equidistant
samples of the piecewise-linear interpolant across the curve's domain,
endpoints included (step `(end - start) / 179`). -/
def build_samples (curve : List (ℚ × ℚ)) : List ℚ :=
  (List.range 180).map fun (i : ℕ) => linearEval curve (sampleAngle curve i)

/-- Rust's saturating `f32 as usize` cast for a finite value: truncation
toward zero, negative values collapse to `0`. -/
def f32AsUsize (q : ℚ) : ℕ := if q ≤ 0 then 0 else (Int.toNat ⌊q⌋)

/-- The table lookup of `update_airfoil_forces` (src/plane.rs lines 529-534)
expressed at degree level: index `(a + 90.0) as usize` into the sample table,
with `.get(..).unwrap_or(&0.0)` supplying `0.0` for any out-of-range index. -/
def tableLookup (table : List ℚ) (aDeg : ℚ) : ℚ :=
  (table.get? (f32AsUsize (aDeg + 90))).getD 0

/-- Modelled from the spec (for comparison with `tableLookup`): the claimed
lookup policy, index `clamp(round(a) + 90, 0, 179)`, always returning a
boundary sample for out-of-domain queries. -/
def claimedTableLookup (table : List ℚ) (aDeg : ℚ) : ℚ :=
  table.getD (Int.toNat (max 0 (min (round aDeg + 90) 179))) 0

/-- The main wing lift-coefficient curve, from `setup_plane` (src/plane.rs
lines 103-107) and `PlaneSpec::default` (src/plane/spec.rs): elements
`[0.0, 0.0, 0.35, 1.4, 0.8, 0.0]` at knots `[-90, -5, 0, 10, 15, 90]`. -/
def wingLiftCurve : List (ℚ × ℚ) :=
  [(0, -90), (0, -5), (0.35, 0), (1.4, 10), (0.8, 15), (0, 90)]

/-- The default drag-coefficient curve of `WingSpec::default`
(src/plane/spec.rs line 86): constant `0.032` across `[-90, 90]`. -/
def defaultDragCurve : List (ℚ × ℚ) := [(0.032, -90), (0.032, 90)]

/-- The horizontal-tail lift curve of `setup_plane` (src/plane.rs lines
119-123): elements `[-0.25, -0.25, 0.0, 0.25, 0.25]` at knots
`[-90, -10, 0, 10, 90]`. -/
def oldTailWingCurve : List (ℚ × ℚ) :=
  [(-0.25, -90), (-0.25, -10), (0, 0), (0.25, 10), (0.25, 90)]

/-- The vertical-tail lift curve of `PlaneSpec::default` (src/plane/spec.rs
lines 42-50). -/
def verticalTailCurve : List (ℚ × ℚ) :=
  [(0, -90), (-0.1, -10), (0, -2.5), (0, 0), (0, 2.5), (0.1, 10), (0, 90)]

theorem build_samples_length (curve : List (ℚ × ℚ)) : (build_samples curve).length = 180 := by
  rw [build_samples, List.length_map, List.length_range]

theorem build_samples_get (curve : List (ℚ × ℚ)) (i : ℕ) (h : i < 180) :
    (build_samples curve).get? i = some (linearEval curve (sampleAngle curve i)) := by
  rw [build_samples, List.get?_map, List.get?_range h]
  rfl

theorem f32AsUsize_nat (n : ℕ) : f32AsUsize ((n : ℚ)) = n := by
  rw [f32AsUsize]
  rcases Nat.eq_zero_or_pos n with h | h
  · subst h; norm_num
  · rw [if_neg (by rw [not_le]; exact_mod_cast h)]
    rw [Int.floor_natCast]
    exact Int.toNat_natCast n

/-! ## Kinematics helpers (src/plane.rs)

`angle_of_attack_signed` computes `Vec3::Y.angle_between(tx.forward())` and
`Vec3::Y.angle_between(velocity.normalize())` and returns their difference.
`angle_between` is `acos`-based and transcendental; it is abstracted below as
a parameter `angleFromY : Vec3 → ℚ` giving the angle from the world `Y` axis
to a vector. `Vec3::normalize` of the zero vector yields a `NaN` vector in
`glam`, and `angle_between` of a `NaN` vector is `NaN`, as is the final
subtraction; `NaN` is modelled as `Option.none`. For a nonzero vector the
normalized direction is `v / |v|`; the square root is exact here for every
concrete velocity used (rational-length vectors). -/

/-- Exact rational square root, used for vector lengths: exact whenever
numerator and denominator are perfect squares (true of every concrete
squared length appearing below). -/
def qsqrt (q : ℚ) : ℚ := ((Int.sqrt q.num : ℤ) : ℚ) / ((Nat.sqrt q.den : ℕ) : ℚ)

/-- `glam`'s `Vec3::normalize` with its zero-length `NaN` result made
explicit: `none` models the `NaN` vector. -/
def Vec3.normalizeNaN (v : Vec3) : Option Vec3 :=
  if v = Vec3.zero then none else some (v.smul (1 / qsqrt (v.dot v)))

/-- `glam`'s `Vec3::normalize_or_zero`: the zero vector maps to the zero
vector instead of `NaN`. -/
def Vec3.normalizeOrZero (v : Vec3) : Vec3 :=
  if v = Vec3.zero then Vec3.zero else v.smul (1 / qsqrt (v.dot v))

/-- Embeds `angle_of_attack_signed` (src/plane.rs lines 458-463):
`a1 = Y.angle_between(tx.forward())`, `a2 = Y.angle_between(v.normalize())`,
result `a2 - a1`; `none` models the `NaN` produced when the velocity is the
zero vector. -/
def angle_of_attack_signed (angleFromY : Vec3 → ℚ) (fwd v : Vec3) : Option ℚ :=
  match v.normalizeNaN with
  | none => none
  | some u => some (angleFromY u - angleFromY fwd)

/-- Embeds `update_airspeed` (src/plane.rs lines 483-488):
`local_velocity = (translation + linvel) - translation`;
`airspeed = -local_velocity.z`. -/
def update_airspeed (translation linvel : Vec3) : ℚ :=
  -(((translation.add linvel).sub translation).z)

/-- Modelled from the spec (for comparison with `update_airspeed`): the
claimed airspeed, the component of the velocity along the aircraft's local
forward axis (`rotation * -Z`), signed positive when moving forward. -/
def airspeedSpec (rotation : Mat3) (linvel : Vec3) : ℚ :=
  linvel.dot rotation.forward

/-! ## Force composition (src/plane.rs) -/

/-- `bevy_rapier3d`'s accumulated external force component: a world-space
force and torque pair. -/
structure ExternalForceState where
  force : Vec3
  torque : Vec3
deriving DecidableEq, Repr

namespace ExternalForceState

/-- The zeroed `ExternalForce::default()`. -/
def zero : ExternalForceState := ⟨Vec3.zero, Vec3.zero⟩

/-- `AddAssign` on `ExternalForce`: componentwise addition. -/
def add (a b : ExternalForceState) : ExternalForceState :=
  ⟨a.force.add b.force, a.torque.add b.torque⟩

/-- `ExternalForce::at_point(force, point, center_of_mass)`: the force with
torque `(point - center_of_mass) × force`. -/
def at_point (force point centerOfMass : Vec3) : ExternalForceState :=
  ⟨force, (point.sub centerOfMass).cross force⟩

theorem add_assoc' (a b c : ExternalForceState) : (a.add b).add c = a.add (b.add c) := by
  simp [add, Vec3.add_assoc]

theorem add_zero' (a : ExternalForceState) : a.add zero = a := by
  simp [add, zero, Vec3.add_zero]

theorem zero_add' (a : ExternalForceState) : zero.add a = a := by
  simp [add, zero, Vec3.zero_add]

end ExternalForceState

/-- The `AirfoilPosition` enum (src/plane.rs lines 83-89). -/
inductive AirfoilPosition where
  | Wings
  | HorizontalTailLeft
  | HorizontalTailRight
  | VerticalTail
deriving DecidableEq, Repr

/-- An airfoil as seen by `update_airfoil_forces`: the `Airfoil` component
(position, area, lift table; src/plane.rs lines 91-96) together with the
data of its `GlobalTransform` that the system reads (up and forward axes and
translation). -/
structure AirfoilInstance where
  position : AirfoilPosition
  area : ℚ
  lift_coefficient_samples : List ℚ
  up : Vec3
  forward : Vec3
  translation : Vec3

/-- The per-tick aircraft state read by the force systems: the abstracted
transcendental primitives (`angleFromY` for `Vec3::Y.angle_between`, `toDeg`
for `f32::to_degrees`), the aircraft's global transform (translation and
rotation), the mass-property local centre of mass, the `PlaneLimits`
`wing_offset_z`, the `Airspeed` and `Velocity` components, and the `Thrust`
scalar. -/
structure FlightEnv where
  angleFromY : Vec3 → ℚ
  toDeg : ℚ → ℚ
  planeTranslation : Vec3
  planeRotation : Mat3
  localCentreOfMass : Vec3
  wing_offset_z : ℚ
  airspeed : ℚ
  velocity : Vec3
  thrust : ℚ

/-- `global_tx.forward()` of the aircraft. -/
def FlightEnv.planeForward (env : FlightEnv) : Vec3 := env.planeRotation.forward

/-- The centre of mass used by `update_airfoil_forces`:
`tx.translation + tx.rotation * mass_properties.local_center_of_mass`. -/
def FlightEnv.centreOfMass (env : FlightEnv) : Vec3 :=
  env.planeTranslation.add (env.planeRotation.mulVec env.localCentreOfMass)

/-- Sea-level air density `1.225` (src/plane.rs line 523). -/
def airDensity : ℚ := 1.225

/-- `dynamic_pressure = 0.5 * air_density * airspeed * airspeed`
(src/plane.rs line 524). -/
def dynamicPressure (env : FlightEnv) : ℚ := 0.5 * airDensity * env.airspeed * env.airspeed

/-- The hardcoded wing drag coefficient (src/plane.rs line 560). -/
def wingDragCoefficient : ℚ := 0.032

/-- The angle of attack `update_airfoil_forces` computes for one airfoil:
`angle_of_attack_signed(airfoil_global_tx, velocity.linvel)`. -/
def airfoilAoa (env : FlightEnv) (a : AirfoilInstance) : Option ℚ :=
  angle_of_attack_signed env.angleFromY a.forward env.velocity

/-- `(angle_of_attack.to_degrees() + 90.0) as usize` (src/plane.rs line 529);
a `NaN` angle (`none`) saturates to index `0` under Rust's float-to-usize
cast. -/
def airfoilLiftIndex (env : FlightEnv) (a : AirfoilInstance) : ℕ :=
  match airfoilAoa env a with
  | none => 0
  | some r => f32AsUsize (env.toDeg r + 90)

/-- `lift_coefficient_samples.get(index).unwrap_or(&0.0)`
(src/plane.rs lines 531-534). -/
def airfoilLiftCoefficient (env : FlightEnv) (a : AirfoilInstance) : ℚ :=
  (a.lift_coefficient_samples.get? (airfoilLiftIndex env a)).getD 0

/-- `lift = lift_coefficient * dynamic_pressure * airfoil.area`
(src/plane.rs line 536). -/
def airfoilLift (env : FlightEnv) (a : AirfoilInstance) : ℚ :=
  airfoilLiftCoefficient env a * dynamicPressure env * a.area

/-- `drag = drag_coefficient * dynamic_pressure * airfoil.area` with the
hardcoded coefficient, computed in the `Wings` arm (src/plane.rs line 561). -/
def wingDrag (env : FlightEnv) (a : AirfoilInstance) : ℚ :=
  wingDragCoefficient * dynamicPressure env * a.area

/-- The force/torque delta one airfoil adds to the aircraft's
`ExternalForce` in `update_airfoil_forces` (src/plane.rs lines 551-575):
wings add `at_point(up * lift, translation + forward * wing_offset_z, com)`
plus a force `-velocity.normalize_or_zero() * drag`; each horizontal tail
adds `at_point(up * lift * 0.01, translation, com)`; the vertical tail
falls into the wildcard arm and adds nothing. -/
def airfoilContribution (env : FlightEnv) (a : AirfoilInstance) : ExternalForceState :=
  let lift := airfoilLift env a
  match a.position with
  | .Wings =>
    let base := ExternalForceState.at_point (a.up.smul lift)
      (a.translation.add (env.planeForward.smul env.wing_offset_z)) env.centreOfMass
    { force := base.force.add ((env.velocity.normalizeOrZero.smul (wingDrag env a)).neg),
      torque := base.torque }
  | .HorizontalTailLeft =>
    ExternalForceState.at_point ((a.up.smul lift).smul 0.01) a.translation env.centreOfMass
  | .HorizontalTailRight =>
    ExternalForceState.at_point ((a.up.smul lift).smul 0.01) a.translation env.centreOfMass
  | .VerticalTail => ExternalForceState.zero

/-- Embeds `update_airfoil_forces` (src/plane.rs lines 498-578): folds every
airfoil's contribution into the aircraft's accumulated `ExternalForce` via
`add_assign`. -/
def update_airfoil_forces (env : FlightEnv) (airfoils : List AirfoilInstance)
    (s : ExternalForceState) : ExternalForceState :=
  airfoils.foldl (fun acc a => acc.add (airfoilContribution env a)) s

/-- Embeds `update_thrust_forces` (src/plane.rs lines 490-496): overwrites
the accumulated force with `global_tx.forward() * thrust`, leaving the
accumulated torque untouched. -/
def update_thrust_forces (env : FlightEnv) (s : ExternalForceState) : ExternalForceState :=
  { s with force := env.planeForward.smul env.thrust }

/-- One tick of the chained force-composition systems, in the plugin's
declared order: `update_thrust_forces` then `update_airfoil_forces`. -/
def flightTick (env : FlightEnv) (airfoils : List AirfoilInstance)
    (s : ExternalForceState) : ExternalForceState :=
  update_airfoil_forces env airfoils (update_thrust_forces env s)

/-! ## Control surfaces and rotation (src/plane.rs) -/

/-- The `PlaneControl` component (src/plane.rs lines 50-55). -/
structure PlaneControl where
  ailerons : ℚ
  elevators : ℚ
  rudder : ℚ

/-- Embeds `update_airfoils_rotations` (src/plane.rs lines 465-481) at the
level of the rotation angle about X: horizontal tail surfaces get rotation
`Quat::from_rotation_x(control.elevators)`, every other airfoil keeps its
current rotation. -/
def updateAirfoilRotationX (control : PlaneControl) (pos : AirfoilPosition)
    (current : ℚ) : ℚ :=
  match pos with
  | .HorizontalTailLeft => control.elevators
  | .HorizontalTailRight => control.elevators
  | _ => current

/-- Modelled from the spec (for comparison with the composer's coefficient):
the claimed control-modified lift coefficient
`base + sqrt(relative_chord) * deflection_angle_radians`, with the deflection
negated on the left surface of an aileron pair. -/
def claimedControlLiftCoefficient (base relativeChord deflection : ℚ)
    (isLeft : Bool) : ℚ :=
  base + qsqrt relativeChord * (if isLeft then -deflection else deflection)

/-- Modelled from the spec (for comparison with the composer's wildcard arm):
the claimed vertical-airfoil contribution, its lift (table sample at its
yaw-plane angle of attack times dynamic pressure times area) applied along
the surface's world-space right vector as an `at_point` force/torque pair. -/
def claimedVerticalContribution (right : Vec3) (samples : List ℚ)
    (aoaDeg q area : ℚ) (point centreOfMass : Vec3) : ExternalForceState :=
  ExternalForceState.at_point (right.smul (tableLookup samples aoaDeg * q * area))
    point centreOfMass

/-! ## Thrust input handling (src/plane.rs, src/input.rs)

Both keyboard handlers adjust the thrust scalar by a fixed rate times the
frame's elapsed seconds and then clamp it to `[0, limit]` unconditionally;
the gamepad handlers adjust it by the stick value times the rate times
elapsed seconds and clamp inside the throttle branch, leaving the value
untouched when the throttle is not engaged. -/

/-- Rust's `f32::clamp(lo, hi)` (well-defined for `lo ≤ hi`). -/
def clampQ (x lo hi : ℚ) : ℚ := max lo (min x hi)

/-- One throttle-relevant input event: pressed states and the frame's
elapsed seconds for the keyboard paths, stick value and elapsed seconds for
the gamepad paths. -/
inductive ThrustEvent where
  | keyboardOld (up down : Bool) (dt : ℚ)
  | keyboardNew (up down : Bool) (dt : ℚ)
  | gamepadOld (pressed : Bool) (value dt : ℚ)
  | gamepadNew (pressed : Bool) (value dt : ℚ)

/-- The effect of one input-handler invocation on the thrust scalar:
`handle_keyboard_input` in src/plane.rs (rate `10.0`, lines 379-390, clamp on
line 390) and in src/input.rs (rate `50.0`, lines 129-136, clamp on line
136) always clamp to `[0, limit]`; `handle_gamepad_input` in src/plane.rs
(lines 430-433) and src/input.rs (lines 171-174) add `value * dt * rate` and
clamp only when the throttle action is pressed. -/
def thrustStep (limit t : ℚ) : ThrustEvent → ℚ
  | .keyboardOld up down dt =>
    let t1 := if up then t + 10 * dt else t
    let t2 := if down then t1 - 10 * dt else t1
    clampQ t2 0 limit
  | .keyboardNew up down dt =>
    let t1 := if up then t + 50 * dt else t
    let t2 := if down then t1 - 50 * dt else t1
    clampQ t2 0 limit
  | .gamepadOld pressed value dt =>
    if pressed then clampQ (t + value * dt * 10) 0 limit else t
  | .gamepadNew pressed value dt =>
    if pressed then clampQ (t + value * dt * 50) 0 limit else t

/-- The thrust scalar after a sequence of input events, starting from `t0`
(the plane spawns with `Thrust(0.0)`). -/
def runThrottle (limit t0 : ℚ) (events : List ThrustEvent) : ℚ :=
  events.foldl (thrustStep limit) t0

/-- The default `PlaneSpec` thrust limit (src/plane/spec.rs line 17). -/
def defaultSpecThrust : ℚ := 500

/-- The `PlaneLimits` thrust limit of `setup_plane` (src/plane.rs line 112). -/
def defaultLimitsThrust : ℚ := 150

/-! ## Shared lemmas about the sampled tables and their lookup -/

theorem tableLookup_eval (curve : List (ℚ × ℚ)) (n : ℕ) (a : ℚ) (ha : a + 90 = (n : ℚ))
    (hn : n < 180) :
    tableLookup (build_samples curve) a = linearEval curve (sampleAngle curve n) := by
  rw [tableLookup, ha, f32AsUsize_nat, build_samples_get _ n hn, Option.getD_some]

theorem tableLookup_low (curve : List (ℚ × ℚ)) (a : ℚ) (ha : a ≤ -90) :
    tableLookup (build_samples curve) a = (build_samples curve).getD 0 0 := by
  rw [tableLookup, f32AsUsize, if_pos (by linarith)]
  rfl

theorem tableLookup_high (curve : List (ℚ × ℚ)) (a : ℚ) (ha : 90 ≤ a) :
    tableLookup (build_samples curve) a = 0 := by
  have hfloor : (180 : ℤ) ≤ ⌊a + 90⌋ := Int.le_floor.mpr (by push_cast; linarith)
  have hidx : 180 ≤ f32AsUsize (a + 90) := by
    rw [f32AsUsize, if_neg (by rw [not_le]; linarith)]
    exact (Int.le_toNat (by linarith)).mpr hfloor
  rw [tableLookup, List.get?_eq_none.mpr (by rw [build_samples_length]; exact hidx)]
  rfl

theorem ExternalForceState.ext_iff2 {a b : ExternalForceState} :
    a = b ↔ a.force = b.force ∧ a.torque = b.torque := by
  constructor
  · intro h; subst h; exact ⟨rfl, rfl⟩
  · intro ⟨h1, h2⟩; cases a; cases b; simp_all

/-- Contributions do not read the accumulator: folding them from any start
state equals the start state plus the fold from the zero state. -/
theorem update_airfoil_forces_add (env : FlightEnv) (l : List AirfoilInstance)
    (s : ExternalForceState) :
    update_airfoil_forces env l s = s.add (update_airfoil_forces env l ExternalForceState.zero) := by
  induction l generalizing s with
  | nil =>
    simp [update_airfoil_forces, ExternalForceState.add_zero']
  | cons a rest ih =>
    have h1 : update_airfoil_forces env (a :: rest) s =
        update_airfoil_forces env rest (s.add (airfoilContribution env a)) := rfl
    have h2 : update_airfoil_forces env (a :: rest) ExternalForceState.zero =
        update_airfoil_forces env rest
          (ExternalForceState.zero.add (airfoilContribution env a)) := rfl
    rw [h1, h2, ih (s.add (airfoilContribution env a)),
        ih (ExternalForceState.zero.add (airfoilContribution env a)),
        ExternalForceState.zero_add', ExternalForceState.add_assoc']

theorem dynamicPressure_zero (env : FlightEnv) (hs : env.airspeed = 0) :
    dynamicPressure env = 0 := by
  rw [dynamicPressure, hs]
  ring

theorem airfoilAoa_zero_velocity (env : FlightEnv) (a : AirfoilInstance)
    (hv : env.velocity = Vec3.zero) : airfoilAoa env a = none := by
  rw [airfoilAoa, angle_of_attack_signed, hv]
  simp [Vec3.normalizeNaN]

theorem airfoilLift_zero_airspeed (env : FlightEnv) (a : AirfoilInstance)
    (hs : env.airspeed = 0) : airfoilLift env a = 0 := by
  rw [airfoilLift, dynamicPressure_zero env hs]
  ring

theorem wingDrag_zero_airspeed (env : FlightEnv) (a : AirfoilInstance)
    (hs : env.airspeed = 0) : wingDrag env a = 0 := by
  rw [wingDrag, dynamicPressure_zero env hs]
  ring

theorem airfoilContribution_zero_airspeed (env : FlightEnv) (a : AirfoilInstance)
    (hs : env.airspeed = 0) :
    airfoilContribution env a = ExternalForceState.zero := by
  have hlift := airfoilLift_zero_airspeed env a hs
  have hdrag := wingDrag_zero_airspeed env a hs
  rcases a with ⟨pos, area, samples, up, fwd, tr⟩
  cases pos <;>
    simp_all [airfoilContribution, ExternalForceState.at_point, ExternalForceState.zero,
      ExternalForceState.ext_iff2, Vec3.ext_iff, Vec3.smul, Vec3.cross, Vec3.add, Vec3.sub,
      Vec3.neg, Vec3.zero]

/-- A concrete per-tick state: zero velocity and airspeed, identity
orientation, zero thrust, with trivial instantiations of the abstract
transcendental primitives. -/
def envZero : FlightEnv :=
  { angleFromY := fun _ => 0
    toDeg := fun r => r
    planeTranslation := Vec3.zero
    planeRotation := Mat3.id3
    localCentreOfMass := Vec3.zero
    wing_offset_z := 0
    airspeed := 0
    velocity := Vec3.zero
    thrust := 0 }

/-- The main wing of `setup_plane`: position `Wings`, area
`11.0 * 1.5 = 16.5`, the sampled main-wing lift table, spawn-time axes. -/
def wingInstance : AirfoilInstance :=
  { position := .Wings
    area := 33/2
    lift_coefficient_samples := build_samples wingLiftCurve
    up := ⟨0, 1, 0⟩
    forward := ⟨0, 0, -1⟩
    translation := Vec3.zero }

/-! ## Claim theorems -/

/-- C1 (corrected): for every coefficient table built by `build_samples`, the
table has exactly 180 entries, and the lookup of `update_airfoil_forces`
truncates `a + 90` toward zero with negative values saturating to index `0`:
every query at or below `-90°` returns `table[0]`, but every query at or
above `+90°` produces an index of at least 180 and falls back to the
`unwrap_or` default `0.0` instead of the boundary sample `table[179]`. -/
theorem c1_amended_lookup_policy (curve : List (ℚ × ℚ)) :
    (build_samples curve).length = 180 ∧
    (∀ a : ℚ, a ≤ -90 → tableLookup (build_samples curve) a = (build_samples curve).getD 0 0) ∧
    (∀ a : ℚ, 90 ≤ a → tableLookup (build_samples curve) a = 0) :=
  ⟨build_samples_length curve,
   fun a ha => tableLookup_low curve a ha,
   fun a ha => tableLookup_high curve a ha⟩

/-- C1 witness: on the table built from the default drag curve the policy
evaluates concretely at `-100°` and `200°`. -/
theorem c1_amended_lookup_policy_witness :
    (build_samples defaultDragCurve).length = 180 ∧
    tableLookup (build_samples defaultDragCurve) (-100) =
      (build_samples defaultDragCurve).getD 0 0 ∧
    tableLookup (build_samples defaultDragCurve) 200 = 0 :=
  ⟨(c1_amended_lookup_policy defaultDragCurve).1,
   (c1_amended_lookup_policy defaultDragCurve).2.1 (-100) (by norm_num),
   (c1_amended_lookup_policy defaultDragCurve).2.2 200 (by norm_num)⟩

/-- C1 counterexample: on the table built from the default drag curve
(constant `0.032`), a lookup at `200°` returns the `unwrap_or` default `0.0`,
not the claimed clamped boundary sample `table[179] = 0.032`. -/
theorem c1_boundary_clamp_counterexample :
    tableLookup (build_samples defaultDragCurve) 200 ≠
      claimedTableLookup (build_samples defaultDragCurve) 200 := by
  have h1 : tableLookup (build_samples defaultDragCurve) 200 = 0 :=
    tableLookup_high defaultDragCurve 200 (by norm_num)
  have hround : round (200 : ℚ) = 200 := by
    rw [show (200 : ℚ) = ((200 : ℕ) : ℚ) by norm_num, round_natCast]
    norm_num
  have hidx : Int.toNat (max 0 (min (round (200 : ℚ) + 90) 179)) = 179 := by
    rw [hround]
    norm_num
    rfl
  have h2 : claimedTableLookup (build_samples defaultDragCurve) 200 = 4/125 := by
    rw [claimedTableLookup, hidx]
    show ((build_samples defaultDragCurve).get? 179).getD 0 = 4/125
    rw [build_samples_get _ 179 (by norm_num), Option.getD_some]
    norm_num [sampleAngle, domainStart, domainEnd, defaultDragCurve, linearEval]
  rw [h1, h2]
  norm_num

/-- C2 (corrected): `Curve::take(180)` samples the curve at 180 equidistant
points spanning the domain with both endpoints included (step `180/179`),
not at integer degrees: the sample indexed by a lookup at `0°` sits at
`90/179 ≈ 0.5028°`, and for the main-wing control points the lookups at `0°`
and `10°` return `721/1790 ≈ 0.4028` and `1193/895 ≈ 1.3330`, not the knot
values `0.35` and `1.4`. -/
theorem c2_amended_sampling_values :
    sampleAngle wingLiftCurve 90 = 90/179 ∧
    tableLookup (build_samples wingLiftCurve) 0 = 721/1790 ∧
    tableLookup (build_samples wingLiftCurve) 10 = 1193/895 := by
  refine ⟨?_, ?_, ?_⟩
  · norm_num [sampleAngle, domainStart, domainEnd, wingLiftCurve]
  · rw [tableLookup_eval wingLiftCurve 90 0 (by norm_num) (by norm_num)]
    norm_num [sampleAngle, domainStart, domainEnd, wingLiftCurve, linearEval]
  · rw [tableLookup_eval wingLiftCurve 100 10 (by norm_num) (by norm_num)]
    norm_num [sampleAngle, domainStart, domainEnd, wingLiftCurve, linearEval]

/-- C2 counterexample: on the table built from the main-wing control points,
the lookups at the knots `0°` and `10°` do not return the knot coefficients
`0.35` and `1.4`. -/
theorem c2_knot_value_counterexample :
    tableLookup (build_samples wingLiftCurve) 0 ≠ 0.35 ∧
    tableLookup (build_samples wingLiftCurve) 10 ≠ 1.4 := by
  constructor
  · rw [tableLookup_eval wingLiftCurve 90 0 (by norm_num) (by norm_num)]
    norm_num [sampleAngle, domainStart, domainEnd, wingLiftCurve, linearEval]
  · rw [tableLookup_eval wingLiftCurve 100 10 (by norm_num) (by norm_num)]
    norm_num [sampleAngle, domainStart, domainEnd, wingLiftCurve, linearEval]

/-- C3 (corrected): across one tick of the chained force systems, the
accumulated force is overwritten (`update_thrust_forces` assigns it before
the airfoil contributions are added), so the output force is independent of
the pre-tick state; but the accumulated torque is never reset: the output
torque is the pre-tick torque plus this tick's airfoil torque contributions,
so it is not independent of the pre-tick value. -/
theorem c3_force_overwrite_torque_accumulation (env : FlightEnv)
    (airfoils : List AirfoilInstance) (s : ExternalForceState) :
    (flightTick env airfoils s).force = (flightTick env airfoils ExternalForceState.zero).force ∧
    (flightTick env airfoils s).torque =
      s.torque.add (flightTick env airfoils ExternalForceState.zero).torque := by
  rw [flightTick, flightTick,
      update_airfoil_forces_add env airfoils (update_thrust_forces env s),
      update_airfoil_forces_add env airfoils (update_thrust_forces env ExternalForceState.zero)]
  constructor
  · simp [update_thrust_forces, ExternalForceState.add, ExternalForceState.zero]
  · simp [update_thrust_forces, ExternalForceState.add, ExternalForceState.zero, Vec3.zero_add]

/-- C3 counterexample: at a concrete state (zero velocity, one wing, zero
thrust), running the tick from a pre-tick torque of `(1,2,3)` yields a
different output than running it from the zeroed state, refuting the claim
that the tick's output is independent of the pre-tick force/torque value. -/
theorem c3_pre_tick_torque_counterexample :
    flightTick envZero [wingInstance] ⟨Vec3.zero, ⟨1, 2, 3⟩⟩ ≠
      flightTick envZero [wingInstance] ExternalForceState.zero := by
  have hc : airfoilContribution envZero wingInstance = ExternalForceState.zero :=
    airfoilContribution_zero_airspeed envZero wingInstance rfl
  have h1 : flightTick envZero [wingInstance] ⟨Vec3.zero, ⟨1, 2, 3⟩⟩ =
      (update_thrust_forces envZero ⟨Vec3.zero, ⟨1, 2, 3⟩⟩).add
        (airfoilContribution envZero wingInstance) := rfl
  have h2 : flightTick envZero [wingInstance] ExternalForceState.zero =
      (update_thrust_forces envZero ExternalForceState.zero).add
        (airfoilContribution envZero wingInstance) := rfl
  rw [h1, h2, hc, ExternalForceState.add_zero', ExternalForceState.add_zero']
  intro h
  have ht := congrArg ExternalForceState.torque h
  simp [update_thrust_forces, ExternalForceState.zero, Vec3.ext_iff, Vec3.zero] at ht

/-- C4 (corrected): at linear velocity exactly `(0,0,0)` (hence airspeed `0`
from `update_airspeed`), every airfoil's lift and drag are `0` and its whole
force/torque contribution is zero, so no `NaN`/`Inf` reaches the force or
torque output; but, contrary to the claim, the velocity normalization inside
the angle-of-attack computation does produce `NaN` (the angle of attack is
`NaN`, modelled as `none`), which is only absorbed downstream by the
saturating index cast and the zero dynamic pressure. -/
theorem c4_zero_velocity_zero_forces (env : FlightEnv) (a : AirfoilInstance)
    (hv : env.velocity = Vec3.zero) (hs : env.airspeed = 0) :
    airfoilAoa env a = none ∧
    airfoilLift env a = 0 ∧
    wingDrag env a = 0 ∧
    airfoilContribution env a = ExternalForceState.zero ∧
    (∀ t : Vec3, update_airspeed t Vec3.zero = 0) :=
  ⟨airfoilAoa_zero_velocity env a hv,
   airfoilLift_zero_airspeed env a hs,
   wingDrag_zero_airspeed env a hs,
   airfoilContribution_zero_airspeed env a hs,
   fun t => by simp [update_airspeed, Vec3.add, Vec3.sub, Vec3.zero]⟩

/-- C4 witness: the zero-velocity conclusions evaluated at the concrete
zero-velocity state and the main-wing airfoil. -/
theorem c4_zero_velocity_zero_forces_witness :
    airfoilAoa envZero wingInstance = none ∧
    airfoilLift envZero wingInstance = 0 ∧
    wingDrag envZero wingInstance = 0 ∧
    airfoilContribution envZero wingInstance = ExternalForceState.zero ∧
    (∀ t : Vec3, update_airspeed t Vec3.zero = 0) :=
  c4_zero_velocity_zero_forces envZero wingInstance rfl rfl

/-- C4 counterexample: `Vec3::normalize` of the zero vector is `NaN`
(modelled as `none`), so the normalization used by
`angle_of_attack_signed` does produce `NaN` at zero velocity: the computed
angle of attack itself is `NaN`, refuting the claim's assertion that the
angle-of-attack normalization does not produce `NaN`. -/
theorem c4_aoa_nan_counterexample :
    Vec3.normalizeNaN Vec3.zero = none ∧
    angle_of_attack_signed (fun u => u.x) ⟨0, 0, -1⟩ Vec3.zero = none := by
  constructor
  · rw [Vec3.normalizeNaN, if_pos rfl]
  · rw [angle_of_attack_signed, Vec3.normalizeNaN, if_pos rfl]

/-- C5 (corrected): `update_airspeed` computes `-(velocity.z)` in world
space (the translation terms cancel); this equals the projection of the
velocity onto the nose direction only when the aircraft's forward axis is
the world `-Z` axis (as for the identity orientation), not for arbitrary
orientations as claimed. -/
theorem c5_airspeed_negated_world_z (t v : Vec3) :
    update_airspeed t v = -v.z ∧
    update_airspeed t v = airspeedSpec Mat3.id3 v := by
  constructor
  · simp [update_airspeed, Vec3.add, Vec3.sub]
  · simp [update_airspeed, airspeedSpec, Mat3.forward, Mat3.mulVec, Mat3.id3, Vec3.dot,
      Vec3.add, Vec3.sub]

/-- C5 counterexample: with the aircraft yawed 90 degrees about `Y` (forward
axis `(-1,0,0)`) and velocity `(0,0,-1)`, the code computes airspeed `1`
while the projection of the velocity onto the nose direction is `0`. -/
theorem c5_orientation_counterexample :
    update_airspeed Vec3.zero ⟨0, 0, -1⟩ = 1 ∧
    airspeedSpec Mat3.rotY90 ⟨0, 0, -1⟩ = 0 ∧
    update_airspeed Vec3.zero ⟨0, 0, -1⟩ ≠ airspeedSpec Mat3.rotY90 ⟨0, 0, -1⟩ := by
  refine ⟨?_, ?_, ?_⟩ <;>
    norm_num [update_airspeed, airspeedSpec, Mat3.forward, Mat3.mulVec, Mat3.rotY90,
      Vec3.dot, Vec3.add, Vec3.sub, Vec3.zero]

/-! ## Concrete in-flight states for the remaining claims -/

theorem qsqrt_sq (r : ℚ) (hr : 0 ≤ r) : qsqrt (r ^ 2) = r := by
  rw [qsqrt, Rat.num_pow, Rat.den_pow]
  rw [show r.num ^ 2 = r.num * r.num by ring, Int.sqrt_eq]
  rw [show r.den ^ 2 = r.den * r.den by ring, Nat.sqrt_eq]
  rw [Int.natAbs_of_nonneg (Rat.num_nonneg.mpr hr)]
  rw [Rat.num_div_den]

theorem normalizeOrZero_eval (v : Vec3) (r : ℚ) (hr : 0 ≤ r) (hd : v.dot v = r ^ 2)
    (hv : ¬(v = Vec3.zero)) : v.normalizeOrZero = v.smul (1 / r) := by
  rw [Vec3.normalizeOrZero, if_neg hv, hd, qsqrt_sq r hr]

/-- A representative in-flight state: level identity orientation, velocity
`(0,0,-10)` (flying straight ahead at 10 m/s) with the matching airspeed
`update_airspeed` would produce (`-velocity.z = 10`), and trivial concrete
instantiations of the abstract transcendental primitives. -/
def env6 : FlightEnv :=
  { angleFromY := fun u => u.x
    toDeg := fun r => r
    planeTranslation := Vec3.zero
    planeRotation := Mat3.id3
    localCentreOfMass := Vec3.zero
    wing_offset_z := 0
    airspeed := 10
    velocity := ⟨0, 0, -10⟩
    thrust := 0 }

/-- A horizontal tail airfoil as built by `setup_plane`: area
`1.0 * 0.7 = 0.7`, the sampled tail lift table, spawn-time axes. -/
def tailInstance : AirfoilInstance :=
  { position := .HorizontalTailLeft
    area := 7/10
    lift_coefficient_samples := build_samples oldTailWingCurve
    up := ⟨0, 1, 0⟩
    forward := ⟨0, 0, -1⟩
    translation := ⟨-1, 0, 4⟩ }

/-- A vertical tail airfoil, carrying the (nonzero) vertical-tail lift table
of `PlaneSpec::default`. -/
def vertInstance : AirfoilInstance :=
  { position := .VerticalTail
    area := 4
    lift_coefficient_samples := build_samples verticalTailCurve
    up := ⟨0, 1, 0⟩
    forward := ⟨0, 0, -1⟩
    translation := ⟨0, 2, 4⟩ }

theorem env6_velocity_ne : ¬(env6.velocity = Vec3.zero) := by
  intro h
  have := congrArg Vec3.z h
  norm_num [env6, Vec3.zero] at this

theorem env6_normalizeOrZero : env6.velocity.normalizeOrZero = ⟨0, 0, -1⟩ := by
  rw [normalizeOrZero_eval env6.velocity 10 (by norm_num) (by norm_num [env6, Vec3.dot])
      env6_velocity_ne]
  show Vec3.smul ⟨0, 0, -10⟩ (1 / 10) = _
  rw [Vec3.smul]
  norm_num

theorem env6_dynamicPressure : dynamicPressure env6 = 245/4 := by
  rw [dynamicPressure, airDensity]
  norm_num [env6]

theorem tail_aoa : airfoilAoa env6 tailInstance = some 0 := by
  rw [airfoilAoa, angle_of_attack_signed, Vec3.normalizeNaN, if_neg env6_velocity_ne]
  show some ((Vec3.smul env6.velocity (1 / qsqrt (env6.velocity.dot env6.velocity))).x -
    (tailInstance.forward).x) = some 0
  rw [Vec3.smul_x]
  norm_num [env6, tailInstance]

theorem tail_lift_index : airfoilLiftIndex env6 tailInstance = 90 := by
  rw [airfoilLiftIndex, tail_aoa]
  show f32AsUsize ((0 : ℚ) + 90) = 90
  rw [show ((0 : ℚ) + 90) = ((90 : ℕ) : ℚ) by norm_num, f32AsUsize_nat]

theorem tail_lift_coefficient : airfoilLiftCoefficient env6 tailInstance = 9/716 := by
  rw [airfoilLiftCoefficient, tail_lift_index]
  show ((build_samples oldTailWingCurve).get? 90).getD 0 = 9/716
  rw [build_samples_get _ 90 (by norm_num), Option.getD_some]
  norm_num [sampleAngle, domainStart, domainEnd, oldTailWingCurve, linearEval]

/-- C6 (corrected): the drag the force composer applies uses the fixed
constant coefficient `0.032`, not a sample from the airfoil's drag
coefficient table, and only in the `Wings` arm: the drag force
`-velocity.normalize_or_zero() * (0.032 * q * area)` is added for the main
wing, while the horizontal tail surfaces receive only their scaled lift
force (no drag term) and the vertical tail receives nothing. -/
theorem c6_drag_constant_and_wings_only (env : FlightEnv) (area : ℚ) (samples : List ℚ)
    (up fwd tr : Vec3) :
    wingDragCoefficient = 0.032 ∧
    (airfoilContribution env ⟨.Wings, area, samples, up, fwd, tr⟩).force =
      (up.smul (airfoilLift env ⟨.Wings, area, samples, up, fwd, tr⟩)).add
        ((env.velocity.normalizeOrZero.smul
          (wingDragCoefficient * dynamicPressure env * area)).neg) ∧
    (airfoilContribution env ⟨.HorizontalTailLeft, area, samples, up, fwd, tr⟩).force =
      (up.smul (airfoilLift env ⟨.HorizontalTailLeft, area, samples, up, fwd, tr⟩)).smul 0.01 ∧
    (airfoilContribution env ⟨.HorizontalTailRight, area, samples, up, fwd, tr⟩).force =
      (up.smul (airfoilLift env ⟨.HorizontalTailRight, area, samples, up, fwd, tr⟩)).smul 0.01 ∧
    airfoilContribution env ⟨.VerticalTail, area, samples, up, fwd, tr⟩ =
      ExternalForceState.zero :=
  ⟨rfl, rfl, rfl, rfl, rfl⟩

/-- C6 counterexample: at a concrete in-flight state, the force added for a
horizontal tail airfoil has zero component along `-velocity` (its `z`
component is `0`), whereas the claim requires an additional drag force of
`drag_table(aoa) * q * area = 343/250` opposite the velocity for each
airfoil; adding the claimed drag term changes the force, so the claimed
force differs from the actual one. -/
theorem c6_tail_no_drag_counterexample :
    (airfoilContribution env6 tailInstance).force.z = 0 ∧
    tableLookup (build_samples defaultDragCurve) 0 * dynamicPressure env6 * tailInstance.area
      = 343/250 ∧
    (airfoilContribution env6 tailInstance).force ≠
      (airfoilContribution env6 tailInstance).force.add
        (((env6.velocity.normalizeOrZero).smul
          (tableLookup (build_samples defaultDragCurve) 0 * dynamicPressure env6 *
            tailInstance.area)).neg) := by
  have hdragval : tableLookup (build_samples defaultDragCurve) 0 * dynamicPressure env6 *
      tailInstance.area = 343/250 := by
    rw [tableLookup_eval defaultDragCurve 90 0 (by norm_num) (by norm_num),
        env6_dynamicPressure]
    norm_num [sampleAngle, domainStart, domainEnd, defaultDragCurve, linearEval, tailInstance]
  have hz : (airfoilContribution env6 tailInstance).force.z = 0 := by
    show (((tailInstance.up).smul (airfoilLift env6 tailInstance)).smul 0.01).z = 0
    rw [Vec3.smul_z, Vec3.smul_z]
    norm_num [tailInstance]
  refine ⟨hz, hdragval, ?_⟩
  intro h
  have hcz := congrArg Vec3.z h
  rw [Vec3.add_z, hz, Vec3.neg_z, Vec3.smul_z, hdragval, env6_normalizeOrZero] at hcz
  norm_num at hcz

/-- C7 (corrected): the force composer ignores vertical airfoils entirely:
the `VerticalTail` position falls into the wildcard match arm, so a
vertical airfoil contributes no force and no torque, whatever its lift
table, area, or orientation axes; no right-vector lift axis or right-vector
angle-of-attack reference exists in the composer
(`angle_of_attack_signed` always measures against the world `Y` axis). -/
theorem c7_vertical_tail_inert (env : FlightEnv) (area : ℚ) (samples : List ℚ)
    (up fwd tr : Vec3) :
    airfoilContribution env ⟨.VerticalTail, area, samples, up, fwd, tr⟩ =
      ExternalForceState.zero := rfl

/-- C7 counterexample: at a concrete in-flight state, the claimed
vertical-airfoil behavior (lift from its table sampled at a `10°` yaw-plane
angle of attack, applied along the surface's right vector) produces a
nonzero force/torque pair, while the composer's actual contribution for the
vertical tail is exactly zero. -/
theorem c7_vertical_lift_counterexample :
    airfoilContribution env6 vertInstance = ExternalForceState.zero ∧
    (claimedVerticalContribution ⟨1, 0, 0⟩ (build_samples verticalTailCurve) 10
        (dynamicPressure env6) 4 vertInstance.translation env6.centreOfMass).force.x
      = 34839/1432 ∧
    claimedVerticalContribution ⟨1, 0, 0⟩ (build_samples verticalTailCurve) 10
        (dynamicPressure env6) 4 vertInstance.translation env6.centreOfMass ≠
      airfoilContribution env6 vertInstance := by
  have hx : (claimedVerticalContribution ⟨1, 0, 0⟩ (build_samples verticalTailCurve) 10
      (dynamicPressure env6) 4 vertInstance.translation env6.centreOfMass).force.x
      = 34839/1432 := by
    show (Vec3.smul ⟨1, 0, 0⟩ (tableLookup (build_samples verticalTailCurve) 10 *
      dynamicPressure env6 * 4)).x = 34839/1432
    rw [Vec3.smul_x, tableLookup_eval verticalTailCurve 100 10 (by norm_num) (by norm_num),
        env6_dynamicPressure]
    norm_num [sampleAngle, domainStart, domainEnd, verticalTailCurve, linearEval]
  refine ⟨rfl, hx, ?_⟩
  intro h
  have := congrArg Vec3.x (congrArg ExternalForceState.force h)
  rw [hx] at this
  have hzero : (airfoilContribution env6 vertInstance).force.x = 0 := rfl
  rw [hzero] at this
  norm_num at this

/-- C8 (corrected): the lift coefficient used in the per-tick lift formula
is exactly the base table sample — there is no additive (or any other)
control-deflection modifier in the composer; control input instead acts
physically: `update_airfoils_rotations` sets the horizontal tail surfaces'
rotation to `Quat::from_rotation_x(control.elevators)` (changing their
transforms, hence their angle of attack), and leaves other airfoils
untouched. -/
theorem c8_lift_coefficient_table_only (env : FlightEnv) (a : AirfoilInstance)
    (control : PlaneControl) (current : ℚ) :
    airfoilLift env a =
      ((a.lift_coefficient_samples.get? (airfoilLiftIndex env a)).getD 0) *
        dynamicPressure env * a.area ∧
    updateAirfoilRotationX control .HorizontalTailLeft current = control.elevators ∧
    updateAirfoilRotationX control .HorizontalTailRight current = control.elevators ∧
    updateAirfoilRotationX control .Wings current = current :=
  ⟨rfl, rfl, rfl, rfl⟩

/-- C8 counterexample: at a concrete state the composer's lift coefficient
for a control-bearing (elevator) tail surface is the bare table sample
`9/716`, while the claimed coefficient with relative chord `0.25` and
deflection `0.1` rad on a left surface is `9/716 + sqrt(0.25) * (-0.1)`,
which differs by `1/20`. -/
theorem c8_control_modifier_counterexample :
    airfoilLiftCoefficient env6 tailInstance = 9/716 ∧
    claimedControlLiftCoefficient (9/716) (1/4) (1/10) true = 9/716 - 1/20 ∧
    airfoilLiftCoefficient env6 tailInstance ≠
      claimedControlLiftCoefficient (airfoilLiftCoefficient env6 tailInstance)
        (1/4) (1/10) true := by
  have hq : qsqrt (1/4) = 1/2 := by
    rw [show (1/4 : ℚ) = (1/2 : ℚ) ^ 2 by norm_num, qsqrt_sq (1/2) (by norm_num)]
  refine ⟨tail_lift_coefficient, ?_, ?_⟩
  · rw [claimedControlLiftCoefficient, hq]
    norm_num
  · rw [tail_lift_coefficient, claimedControlLiftCoefficient, hq]
    norm_num

/-- C9 (confirmed): under any sequence of throttle-increase and
throttle-decrease input events — keyboard or gamepad, old or new handler —
the stored thrust scalar stays within `[0, limit]`: the keyboard handlers
clamp unconditionally each invocation, and the gamepad handlers clamp
whenever they change the value. -/
theorem c9_thrust_clamp_invariant (limit t0 : ℚ) (events : List ThrustEvent)
    (hl : 0 ≤ limit) (h0 : 0 ≤ t0) (h1 : t0 ≤ limit) :
    0 ≤ runThrottle limit t0 events ∧ runThrottle limit t0 events ≤ limit := by
  induction events generalizing t0 with
  | nil => exact ⟨h0, h1⟩
  | cons e rest ih =>
    have hclamp : ∀ x : ℚ, 0 ≤ clampQ x 0 limit ∧ clampQ x 0 limit ≤ limit := fun x =>
      ⟨le_max_left 0 _, max_le hl (min_le_right x limit)⟩
    have hstep : 0 ≤ thrustStep limit t0 e ∧ thrustStep limit t0 e ≤ limit := by
      cases e with
      | keyboardOld up down dt => exact hclamp _
      | keyboardNew up down dt => exact hclamp _
      | gamepadOld pressed value dt =>
        cases pressed
        · exact ⟨h0, h1⟩
        · exact hclamp _
      | gamepadNew pressed value dt =>
        cases pressed
        · exact ⟨h0, h1⟩
        · exact hclamp _
    exact ih (thrustStep limit t0 e) hstep.1 hstep.2

/-- C9 witness: a concrete input sequence (hold thrust-up, a gamepad
throttle push, thrust-down, then a long old-handler thrust-up) starting from
the spawn value `0.0` against the default spec limit `500`. -/
theorem c9_thrust_clamp_invariant_witness :
    0 ≤ runThrottle defaultSpecThrust 0
        [ThrustEvent.keyboardNew true false 1, ThrustEvent.gamepadNew true 1 3,
         ThrustEvent.keyboardNew false true 2, ThrustEvent.keyboardOld true false 100] ∧
    runThrottle defaultSpecThrust 0
        [ThrustEvent.keyboardNew true false 1, ThrustEvent.gamepadNew true 1 3,
         ThrustEvent.keyboardNew false true 2, ThrustEvent.keyboardOld true false 100]
      ≤ defaultSpecThrust :=
  c9_thrust_clamp_invariant defaultSpecThrust 0 _ (by norm_num [defaultSpecThrust])
    (by norm_num) (by norm_num [defaultSpecThrust])

/-- C10 (confirmed): each horizontal tail airfoil's contribution is exactly
`at_point(up * lift * 0.01, translation, centre_of_mass)` — the surface's up
vector times one hundredth of the lift computed from the sampled
coefficient, dynamic pressure and area — while the main wing's lift enters
its force unscaled (plus the wing's drag term). -/
theorem c10_tail_hundredth_wing_unscaled (env : FlightEnv) (area : ℚ) (samples : List ℚ)
    (up fwd tr : Vec3) :
    airfoilContribution env ⟨.HorizontalTailLeft, area, samples, up, fwd, tr⟩ =
      ExternalForceState.at_point
        ((up.smul (airfoilLift env ⟨.HorizontalTailLeft, area, samples, up, fwd, tr⟩)).smul 0.01)
        tr env.centreOfMass ∧
    airfoilContribution env ⟨.HorizontalTailRight, area, samples, up, fwd, tr⟩ =
      ExternalForceState.at_point
        ((up.smul (airfoilLift env ⟨.HorizontalTailRight, area, samples, up, fwd, tr⟩)).smul 0.01)
        tr env.centreOfMass ∧
    (airfoilContribution env ⟨.Wings, area, samples, up, fwd, tr⟩).force =
      (up.smul (airfoilLift env ⟨.Wings, area, samples, up, fwd, tr⟩)).add
        ((env.velocity.normalizeOrZero.smul
          (wingDrag env ⟨.Wings, area, samples, up, fwd, tr⟩)).neg) :=
  ⟨rfl, rfl, rfl⟩

end FlightSim
